import Mathlib

/-!
Verification of the core data transformations of the CNTK-on-PySpark scoring
walkthrough (`CNTK_model_scoring_on_Spark_walkthrough.ipynb`).

The notebook's own logic consists of:
* `reshape_image` — reshape a flat 3072-byte CIFAR pixel buffer to a
  (32, 32, 3) height-width-channel tensor (`image.reshape(3,32,32).transpose(1,2,0)`);
* the mean-image setup — parse a flat list of floats and
  `reshape((32, 32, 3)).transpose((2, 0, 1))` it into a (3, 32, 32) tensor;
* `get_preprocessed_image` — cast to float, reverse the channel axis
  (RGB to BGR), transpose to (C, H, W) and subtract the mean image;
* `run_worker` — per partition: load the model once, then for each record
  preprocess, evaluate the model and yield `(true_label, argmax(scores))`;
* the aggregation cells — `num_correct / num_total` accuracy and an
  sklearn confusion matrix over `np.sort(df['true_label'].unique())`.

Pixel and score values are modelled as rationals (ℚ); `astype(np.float32)`
and `np.ascontiguousarray` are value-preserving on the data we model and are
embedded as the identity.  Fallible operations (numpy `reshape` on a buffer
of the wrong length, numpy elementwise subtraction of mismatched shapes,
Python division by zero, CNTK `load_model`) are embedded in `Except Err`.
-/

/-- Errors of the pipeline: numpy `ValueError` on a bad `reshape` of a pixel
buffer (the spec's MalformedRecordError), the same error on the mean-image
setup reshape (a configuration error), numpy shape mismatch in elementwise
subtraction, CNTK model-load failure, and Python `ZeroDivisionError`. -/
inductive Err where
  | MalformedRecordError
  | ConfigError
  | DimensionMismatchError
  | ModelLoadError
  | ZeroDivisionError
deriving DecidableEq, Repr

/-- A three-dimensional numeric array (numpy `ndarray` of rank 3): its shape
`(d0, d1, d2)` together with its entries.  Entries are total functions on ℕ;
only indices below the bounds are meaningful. -/
structure Tensor3 where
  d0 : Nat
  d1 : Nat
  d2 : Nat
  data : Nat → Nat → Nat → Rat

/-- numpy `buf.reshape(s0, s1, s2)` on a flat buffer: requires the length to
equal `s0*s1*s2` exactly (otherwise numpy raises `ValueError`), and reads the
buffer in row-major (C) order. -/
def np_reshape3 (s0 s1 s2 : Nat) (buf : List Rat) : Option Tensor3 :=
  if buf.length = s0 * s1 * s2 then
    some ⟨s0, s1, s2, fun i j k => buf.getD (i * (s1 * s2) + j * s2 + k) 0⟩
  else
    none

/-- numpy `t.transpose(1, 2, 0)`: new axis 0 is old axis 1, etc., so the
entry at `(i, j, k)` of the result is the entry at `(k, i, j)` of `t`. -/
def np_transpose_120 (t : Tensor3) : Tensor3 :=
  ⟨t.d1, t.d2, t.d0, fun i j k => t.data k i j⟩

/-- numpy `t.transpose(2, 0, 1)`: new axis 0 is old axis 2, etc., so the
entry at `(i, j, k)` of the result is the entry at `(j, k, i)` of `t`. -/
def np_transpose_201 (t : Tensor3) : Tensor3 :=
  ⟨t.d2, t.d0, t.d1, fun i j k => t.data j k i⟩

/-- numpy `t[:, :, ::-1]`: reverse the last axis. -/
def np_flip_axis2 (t : Tensor3) : Tensor3 :=
  ⟨t.d0, t.d1, t.d2, fun i j k => t.data i j (t.d2 - 1 - k)⟩

/-- numpy elementwise subtraction `a - b` of two rank-3 arrays of identical
shape; a shape mismatch raises (numpy broadcasting error).  The notebook only
ever subtracts same-shaped arrays, so broadcasting with size-1 axes is not
modelled. -/
def np_sub (a b : Tensor3) : Except Err Tensor3 :=
  if a.d0 = b.d0 ∧ a.d1 = b.d1 ∧ a.d2 = b.d2 then
    .ok ⟨a.d0, a.d1, a.d2, fun i j k => a.data i j k - b.data i j k⟩
  else
    .error .DimensionMismatchError

/-- numpy `t.reshape(-1)` row-major flattening of a rank-3 array back to a
flat buffer. -/
def np_flatten (t : Tensor3) : List Rat :=
  (List.range (t.d0 * t.d1 * t.d2)).map
    (fun k => t.data (k / (t.d1 * t.d2)) (k / t.d2 % t.d1) (k % t.d2))

/-- An input record before reshaping: a flat pixel buffer plus the label and
filename, as produced by the dataset loader. -/
structure ImageRecord where
  pixels : List Rat
  label : Int
  filename : String

/-- The pixel-buffer part of `reshape_image`:
`image.reshape(3, 32, 32).transpose(1, 2, 0)`.  A buffer whose length is not
3072 makes numpy `reshape` raise (the spec's MalformedRecordError). -/
def reshape_pixels (buf : List Rat) : Except Err Tensor3 :=
  match np_reshape3 3 32 32 buf with
  | some t => .ok (np_transpose_120 t)
  | none => .error .MalformedRecordError

/-- `reshape_image(record)`: destructure `(image, label, filename)`, reshape
the pixel buffer, and return `(tensor, label, filename)` with label and
filename untouched. -/
def reshape_image (record : ImageRecord) : Except Err (Tensor3 × Int × String) := do
  let t ← reshape_pixels record.pixels
  pure (t, record.label, record.filename)

/-- The mean-image setup of the notebook, starting from the flat list of
floats extracted from the OpenCV XML file:
`np.array(mean_image).reshape((32, 32, 3)).transpose((2, 0, 1))`.
A list whose length is not 3072 makes the setup `reshape` raise, so a
malformed mean image is rejected here, before any record is scored. -/
def setup_mean_image (vals : List Rat) : Except Err Tensor3 :=
  match np_reshape3 32 32 3 vals with
  | some t => .ok (np_transpose_201 t)
  | none => .error .ConfigError

/-- `get_preprocessed_image(my_image, mean_image)`: cast to float32
(identity on our rational values), reverse the channel axis (RGB to BGR),
transpose to channel-height-width, and subtract the mean image. -/
def get_preprocessed_image (my_image mean_image : Tensor3) : Except Err Tensor3 :=
  np_sub (np_transpose_201 (np_flip_axis2 my_image)) mean_image

/-- `np.argmax` on a flat vector: the index of the first occurrence of the
maximum value (ties broken by the lowest index, per the numpy contract). -/
def np_argmax : List Rat → Nat
  | [] => 0
  | [_] => 0
  | x :: y :: xs =>
    let k := np_argmax (y :: xs)
    if x < (y :: xs).getD k 0 then k + 1 else 0

/-- A record of `image_rdd` after the `reshape_image` map: the reshaped
(32, 32, 3) tensor plus label and filename. -/
structure ScoredRecord where
  image : Tensor3
  label : Int
  filename : String

/-- The loaded model, seen only through evaluation: preprocessed tensor in,
squeezed score vector out (`np.squeeze(loaded_model.eval(...))`). -/
def Model : Type := Tensor3 → List Rat

/-- One prediction emitted by `run_worker`:
`yield record[1], np.argmax(np.squeeze(dnn_output))`. -/
structure PredictionResult where
  true_label : Int
  predicted_label : Int
deriving DecidableEq, Repr

/-- The body of one iteration of the `run_worker` loop: preprocess the
record's image, evaluate the model, and pair the record's true label with the
argmax of the score vector.  An exception in preprocessing aborts. -/
def score_record (loaded_model : Model) (mean_image : Tensor3)
    (r : ScoredRecord) : Except Err PredictionResult := do
  let pre ← get_preprocessed_image r.image mean_image
  pure ⟨r.label, (np_argmax (loaded_model pre) : Int)⟩

/-- The `for record in records` loop of `run_worker`: one yielded result per
record, in input order; a raised exception aborts the partition with no
further results. -/
def worker_loop (loaded_model : Model) (mean_image : Tensor3) :
    List ScoredRecord → Except Err (List PredictionResult)
  | [] => .ok []
  | r :: rs => do
    let p ← score_record loaded_model mean_image r
    let rest ← worker_loop loaded_model mean_image rs
    pure (p :: rest)

/-- `run_worker(records)` as executed by Spark for one partition:
`load_model` runs exactly once, before the loop (the second component counts
the load attempts of the invocation); if it raises, the whole partition task
fails with no results; otherwise the loop scores each record in order.
The load outcome is the `loadResult` parameter. -/
def run_worker (loadResult : Except Err Model) (mean_image : Tensor3)
    (records : List ScoredRecord) :
    Except Err (List PredictionResult) × Nat :=
  match loadResult with
  | .error e => (.error e, 1)
  | .ok m => (worker_loop m mean_image records, 1)

/-- `num_correct = sum(df['true_label'] == df['predicted_label'])`. -/
def num_correct (results : List PredictionResult) : Nat :=
  (results.filter (fun r => r.true_label == r.predicted_label)).length

/-- `num_total = len(results)`. -/
def num_total (results : List PredictionResult) : Nat :=
  results.length

/-- Python 3 true division `a / b`: raises `ZeroDivisionError` when `b = 0`. -/
def py_div (a b : Rat) : Except Err Rat :=
  if b = 0 then .error .ZeroDivisionError else .ok (a / b)

/-- The accuracy fraction computed by the evaluation cell:
`num_correct / num_total` (the cell prints it scaled by 100). -/
def accuracy (results : List PredictionResult) : Except Err Rat :=
  py_div (num_correct results) (num_total results)

/-- `labels = np.sort(df['true_label'].unique())`: the distinct true labels
occurring in the results, in ascending order. -/
def sorted_unique_true_labels (results : List PredictionResult) : List Int :=
  ((results.map (fun r => r.true_label)).dedup).insertionSort (· ≤ ·)

/-- `confusion_matrix(df['true_label'], df['predicted_label'], labels=labels)`
with `labels = np.sort(df['true_label'].unique())`: a square matrix indexed
by those labels whose `(i, j)` entry counts the results with true label
`labels[i]` and predicted label `labels[j]`. -/
def confusion_matrix (results : List PredictionResult) : List (List Nat) :=
  (sorted_unique_true_labels results).map (fun t =>
    (sorted_unique_true_labels results).map (fun p =>
      (results.filter (fun r => r.true_label == t && r.predicted_label == p)).length))

/-- The tensor that preprocessing a record's (32, 32, 3) image against a
matching mean image produces: channel axis reversed, layout transposed to
(C, H, W), mean subtracted elementwise. -/
def preprocessed_tensor (mean_image : Tensor3) (r : ScoredRecord) : Tensor3 :=
  ⟨r.image.d2, r.image.d0, r.image.d1,
   fun c h w => r.image.data h w (r.image.d2 - 1 - c) - mean_image.data c h w⟩

/-- The score vector the model produces for one record: the model evaluated
on the record's preprocessed image. -/
def record_scores (loaded_model : Model) (mean_image : Tensor3)
    (r : ScoredRecord) : List Rat :=
  loaded_model (preprocessed_tensor mean_image r)

/-! ## Helper lemmas -/

theorem list_getD_of_lt {α : Type} (l : List α) (d : α) (i : Nat)
    (h : i < l.length) : l.getD i d = l[i] := by
  simp [List.getD_eq_getElem?_getD, List.getElem?_eq_getElem h]

/-- Characterization of `get_preprocessed_image` on matching shapes. -/
theorem get_preprocessed_image_ok (img mean : Tensor3)
    (h1 : img.d2 = mean.d0) (h2 : img.d0 = mean.d1) (h3 : img.d1 = mean.d2) :
    get_preprocessed_image img mean =
      .ok ⟨img.d2, img.d0, img.d1,
        fun c h w => img.data h w (img.d2 - 1 - c) - mean.data c h w⟩ := by
  simp [get_preprocessed_image, np_sub, np_transpose_201, np_flip_axis2, h1, h2, h3]

/-- Inversion for `reshape_pixels`: success forces buffer length 3072 and
determines the resulting tensor, whose entry at `(i, j, k)` is the buffer
entry at channel-major position `k*1024 + i*32 + j`. -/
theorem reshape_pixels_ok_iff (buf : List Rat) (t : Tensor3) :
    reshape_pixels buf = .ok t ↔
      buf.length = 3072 ∧
      t = ⟨32, 32, 3, fun i j k => buf.getD (k * 1024 + i * 32 + j) 0⟩ := by
  unfold reshape_pixels np_reshape3
  by_cases h : buf.length = 3 * 32 * 32
  · simp only [if_pos h]
    constructor
    · intro hok
      refine ⟨by omega, ?_⟩
      have := hok
      simp only [np_transpose_120] at this
      injection this with this
      exact this.symm
    · intro ⟨_, ht⟩
      subst ht
      rfl
  · simp only [if_neg h]
    constructor
    · intro hok
      exact absurd hok (by simp)
    · intro ⟨hlen, _⟩
      omega

theorem reshape_pixels_eq (buf : List Rat) (h : buf.length = 3072) :
    reshape_pixels buf =
      .ok ⟨32, 32, 3, fun i j k => buf.getD (k * 1024 + i * 32 + j) 0⟩ :=
  (reshape_pixels_ok_iff buf _).mpr ⟨h, rfl⟩

theorem reshape_pixels_err (buf : List Rat) (h : buf.length ≠ 3072) :
    reshape_pixels buf = .error .MalformedRecordError := by
  unfold reshape_pixels np_reshape3
  rw [if_neg (by omega)]

/-- Re-flattening the reshaped tensor (transposing back to channel-major
order and flattening row-major) recovers the original buffer. -/
theorem np_flatten_recovers (buf : List Rat) (h : buf.length = 3072) :
    np_flatten (np_transpose_201
      ⟨32, 32, 3, fun i j k => buf.getD (k * 1024 + i * 32 + j) 0⟩) = buf := by
  unfold np_transpose_201 np_flatten
  apply List.ext_getElem
  · simpa using h.symm
  · intro n h1 h2
    simp only [List.getElem_map, List.getElem_range]
    show buf.getD (n / (32 * 32) * 1024 + n / 32 % 32 * 32 + n % 32) 0 = buf[n]
    have hn : n / (32 * 32) * 1024 + n / 32 % 32 * 32 + n % 32 = n := by omega
    rw [hn]
    exact list_getD_of_lt buf 0 n h2

/-- `np_argmax` on a nonempty vector returns an in-range index whose entry is
a maximum, and every earlier entry is strictly smaller (first-occurrence /
lowest-index tie-breaking). -/
theorem np_argmax_spec (s : List Rat) (hs : s ≠ []) :
    np_argmax s < s.length ∧
    (∀ j, j < s.length → s.getD j 0 ≤ s.getD (np_argmax s) 0) ∧
    (∀ j, j < np_argmax s → s.getD j 0 < s.getD (np_argmax s) 0) := by
  induction s with
  | nil => exact absurd rfl hs
  | cons x xs ih =>
    cases xs with
    | nil =>
      refine ⟨by simp [np_argmax], ?_, ?_⟩
      · intro j hj
        cases j with
        | zero => simp [np_argmax]
        | succ j => simp at hj
      · intro j hj
        simp [np_argmax] at hj
    | cons y t =>
      obtain ⟨ihlt, ihmax, ihfirst⟩ := ih (by simp)
      rw [np_argmax]
      by_cases hx : x < (y :: t).getD (np_argmax (y :: t)) 0
      · rw [if_pos hx]
        refine ⟨by simpa using ihlt, ?_, ?_⟩
        · intro j hj
          cases j with
          | zero => simpa using le_of_lt hx
          | succ j =>
            simp only [List.getD_cons_succ]
            exact ihmax j (by simpa using hj)
        · intro j hj
          cases j with
          | zero => simpa using hx
          | succ j =>
            simp only [List.getD_cons_succ]
            exact ihfirst j (by omega)
      · rw [if_neg hx]
        push_neg at hx
        refine ⟨by simp, ?_, ?_⟩
        · intro j hj
          cases j with
          | zero => simp
          | succ j =>
            simp only [List.getD_cons_succ, List.getD_cons_zero]
            exact le_trans (ihmax j (by simpa using hj)) hx
        · intro j hj
          omega

/-- If every record of the partition scores successfully, the worker loop
returns exactly the per-record results, in input order. -/
theorem worker_loop_map (m : Model) (mean_image : Tensor3)
    (records : List ScoredRecord) (f : ScoredRecord → PredictionResult)
    (h : ∀ r ∈ records, score_record m mean_image r = .ok (f r)) :
    worker_loop m mean_image records = .ok (records.map f) := by
  induction records with
  | nil => rfl
  | cons r rs ih =>
    have hr := h r (by simp)
    have hrs := ih (fun r hmem => h r (by simp [hmem]))
    simp only [worker_loop, hr, hrs]
    rfl

/-- Scoring one record with matching shapes succeeds and pairs the record's
label with the argmax of the model's scores on the preprocessed tensor. -/
theorem score_record_ok (m : Model) (mean_image : Tensor3) (r : ScoredRecord)
    (h0 : r.image.d2 = mean_image.d0) (h1 : r.image.d0 = mean_image.d1)
    (h2 : r.image.d1 = mean_image.d2) :
    score_record m mean_image r =
      .ok ⟨r.label, (np_argmax (m (preprocessed_tensor mean_image r)) : Int)⟩ := by
  rw [score_record, get_preprocessed_image_ok _ _ h0 h1 h2]
  rfl

/-- Mean-image setup on a well-sized value list: the (3, 32, 32) tensor whose
entry at `(c, i, j)` is the flat value at row-major position `i*96 + j*3 + c`. -/
theorem setup_mean_image_ok (vals : List Rat) (h : vals.length = 3072) :
    setup_mean_image vals =
      .ok ⟨3, 32, 32, fun c i j => vals.getD (i * 96 + j * 3 + c) 0⟩ := by
  unfold setup_mean_image np_reshape3
  rw [if_pos (show vals.length = 32 * 32 * 3 by omega)]
  rfl

/-- Mean-image setup rejects a value list of the wrong length. -/
theorem setup_mean_image_err (vals : List Rat) (h : vals.length ≠ 3072) :
    setup_mean_image vals = .error .ConfigError := by
  unfold setup_mean_image np_reshape3
  rw [if_neg (show ¬vals.length = 32 * 32 * 3 by omega)]

/-- The accuracy cell on a nonempty result list divides the correct count by
the total count. -/
theorem accuracy_eq (results : List PredictionResult) (h : results ≠ []) :
    accuracy results = .ok ((num_correct results : Rat) / (results.length : Rat)) := by
  unfold accuracy py_div num_total
  rw [if_neg]
  intro hc
  exact h (List.length_eq_zero.mp (by exact_mod_cast hc))

/-- Every true label occurring in the results appears among the sorted unique
true labels used to index the confusion matrix. -/
theorem mem_sorted_unique_true_labels (results : List PredictionResult)
    (r : PredictionResult) (hr : r ∈ results) :
    r.true_label ∈ sorted_unique_true_labels results := by
  unfold sorted_unique_true_labels
  rw [(List.perm_insertionSort _ _).mem_iff, List.mem_dedup]
  exact List.mem_map.mpr ⟨r, hr, rfl⟩

/-- The `(i, j)` entry of the confusion matrix counts the results whose true
label is the `i`-th and whose predicted label is the `j`-th of the sorted
unique true labels. -/
theorem confusion_matrix_entry (results : List PredictionResult) (i j : Nat)
    (hi : i < (sorted_unique_true_labels results).length)
    (hj : j < (sorted_unique_true_labels results).length) :
    ((confusion_matrix results).getD i []).getD j 0 =
      (results.filter (fun r =>
        r.true_label == (sorted_unique_true_labels results).getD i 0 &&
        r.predicted_label == (sorted_unique_true_labels results).getD j 0)).length := by
  unfold confusion_matrix
  rw [list_getD_of_lt _ _ i (by simpa using hi), List.getElem_map]
  rw [list_getD_of_lt _ _ j (by simpa using hj), List.getElem_map]
  rw [list_getD_of_lt _ _ i hi, list_getD_of_lt _ _ j hj]

/-! ## Claim theorems -/

/-- Claim C7 (confirmed): every flat buffer of length 3072 reshapes to a
(32, 32, 3) height-width-channel tensor read from the buffer in channel-major
order; re-flattening the output tensor (transposing back to channel-major
order and flattening row-major) recovers the original buffer, so the reshaper
is a bijection onto its image. -/
theorem reshape_image_shape_and_bijection (buf : List Rat)
    (h : buf.length = 3072) :
    ∃ t, reshape_pixels buf = .ok t ∧
      t.d0 = 32 ∧ t.d1 = 32 ∧ t.d2 = 3 ∧
      (∀ i j k, t.data i j k = buf.getD (k * 1024 + i * 32 + j) 0) ∧
      np_flatten (np_transpose_201 t) = buf ∧
      (∀ buf2 t2, reshape_pixels buf2 = .ok t2 → t2 = t → buf2 = buf) := by
  refine ⟨_, reshape_pixels_eq buf h, rfl, rfl, rfl, fun i j k => rfl,
    np_flatten_recovers buf h, ?_⟩
  intro buf2 t2 h2 ht
  obtain ⟨hlen2, ht2⟩ := (reshape_pixels_ok_iff buf2 t2).mp h2
  have hrec := np_flatten_recovers buf2 hlen2
  rw [← ht2, ht] at hrec
  rw [← hrec]
  exact np_flatten_recovers buf h

/-- Witness for C7 at the all-zero buffer of length 3072. -/
theorem reshape_image_shape_and_bijection_witness :
    ∃ t, reshape_pixels (List.replicate 3072 (0 : Rat)) = .ok t ∧
      np_flatten (np_transpose_201 t) = List.replicate 3072 (0 : Rat) := by
  obtain ⟨t, h1, _, _, _, _, h6, _⟩ :=
    reshape_image_shape_and_bijection (List.replicate 3072 (0 : Rat))
      (by rw [List.length_replicate])
  exact ⟨t, h1, h6⟩

/-- Claim C8 (confirmed): a flat buffer whose length differs from 3072 makes
the record reshaper fail with MalformedRecordError (the numpy reshape error)
instead of producing a tensor, both at the buffer level and for the whole
record. -/
theorem reshape_image_malformed_buffer_fails (buf : List Rat)
    (h : buf.length ≠ 3072) (lab : Int) (fn : String) :
    reshape_pixels buf = .error .MalformedRecordError ∧
    reshape_image ⟨buf, lab, fn⟩ = .error .MalformedRecordError := by
  refine ⟨reshape_pixels_err buf h, ?_⟩
  simp only [reshape_image, reshape_pixels_err buf h]
  rfl

/-- Witness for C8 at a buffer of length 3071. -/
theorem reshape_image_malformed_buffer_fails_witness :
    reshape_image ⟨List.replicate 3071 (0 : Rat), 3, "bad"⟩ =
      .error .MalformedRecordError :=
  (reshape_image_malformed_buffer_fails (List.replicate 3071 (0 : Rat))
    (by rw [List.length_replicate]; omega) 3 "bad").2

/-- Claim C9 (confirmed): when model loading fails, `run_worker` fails the
whole partition atomically — the partition's outcome is the load error
itself, no list of results (partial or otherwise) is produced, and the load
is attempted exactly once (no retry at this layer). -/
theorem run_worker_load_failure_fails_partition (e : Err)
    (mean_image : Tensor3) (records : List ScoredRecord) :
    run_worker (.error e) mean_image records = (.error e, 1) ∧
    ∀ out : List PredictionResult,
      (run_worker (.error e) mean_image records).1 ≠ .ok out := by
  refine ⟨rfl, ?_⟩
  intro out hout
  simp [run_worker] at hout

/-- Witness for C9: a failed load on a one-record partition. -/
theorem run_worker_load_failure_fails_partition_witness :
    run_worker (.error .ModelLoadError) ⟨3, 32, 32, fun _ _ _ => 0⟩
        [⟨⟨32, 32, 3, fun _ _ _ => 0⟩, 0, "img"⟩] = (.error .ModelLoadError, 1) ∧
    (run_worker (.error .ModelLoadError) ⟨3, 32, 32, fun _ _ _ => 0⟩
        [⟨⟨32, 32, 3, fun _ _ _ => 0⟩, 0, "img"⟩]).1 ≠ .ok [] := by
  have h := run_worker_load_failure_fails_partition .ModelLoadError
    ⟨3, 32, 32, fun _ _ _ => 0⟩ [⟨⟨32, 32, 3, fun _ _ _ => 0⟩, 0, "img"⟩]
  exact ⟨h.1, h.2 []⟩

/-- Claim C5 (confirmed): `run_worker` performs the model-load operation
exactly once per invocation, whatever the partition contents (never once per
record); in particular a successfully loading worker on the empty partition
yields the empty result sequence while still having made exactly one load
attempt. -/
theorem run_worker_loads_model_once (loadResult : Except Err Model)
    (mean_image : Tensor3) (records : List ScoredRecord) :
    (run_worker loadResult mean_image records).2 = 1 ∧
    ∀ m, loadResult = .ok m →
      run_worker loadResult mean_image [] = (.ok [], 1) := by
  constructor
  · cases loadResult <;> rfl
  · intro m hm
    subst hm
    rfl

/-- Witness for C5: a concrete successful load on the empty partition. -/
theorem run_worker_loads_model_once_witness :
    (run_worker (.ok fun _ => []) ⟨3, 32, 32, fun _ _ _ => 0⟩ []).2 = 1 ∧
    run_worker (.ok fun _ => []) ⟨3, 32, 32, fun _ _ _ => 0⟩ [] = (.ok [], 1) := by
  have h := run_worker_loads_model_once (.ok fun _ => [])
    ⟨3, 32, 32, fun _ _ _ => 0⟩ []
  exact ⟨h.1, h.2 _ rfl⟩

/-- Claim C3 (confirmed): a mean image whose data cannot form the expected
(32, 32, 3) spatial shape is rejected by the one-time setup (a fatal
configuration error, before any record is processed); conversely, whenever
setup succeeds the mean image has shape (3, 32, 32), and preprocessing any
reshaped record against it never raises a per-record dimension mismatch. -/
theorem mean_image_dims_checked_at_setup (vals : List Rat) :
    (vals.length ≠ 3072 → setup_mean_image vals = .error .ConfigError) ∧
    ∀ mean, setup_mean_image vals = .ok mean →
      mean.d0 = 3 ∧ mean.d1 = 32 ∧ mean.d2 = 32 ∧
      ∀ buf t, reshape_pixels buf = .ok t →
        ∃ out, get_preprocessed_image t mean = .ok out := by
  refine ⟨setup_mean_image_err vals, ?_⟩
  intro mean hok
  by_cases h : vals.length = 3072
  · rw [setup_mean_image_ok vals h] at hok
    injection hok with hok
    subst hok
    refine ⟨rfl, rfl, rfl, ?_⟩
    intro buf t hbt
    obtain ⟨-, ht⟩ := (reshape_pixels_ok_iff buf t).mp hbt
    subst ht
    exact ⟨_, get_preprocessed_image_ok _ _ rfl rfl rfl⟩
  · rw [setup_mean_image_err vals h] at hok
    exact absurd hok (by simp)

/-- Witness for C3: a 3071-float mean image fails at setup; a 3072-float one
sets up a mean image against which a reshaped record preprocesses cleanly. -/
theorem mean_image_dims_checked_at_setup_witness :
    setup_mean_image (List.replicate 3071 (0 : Rat)) = .error .ConfigError ∧
    ∃ mean t out, setup_mean_image (List.replicate 3072 (0 : Rat)) = .ok mean ∧
      reshape_pixels (List.replicate 3072 (0 : Rat)) = .ok t ∧
      get_preprocessed_image t mean = .ok out := by
  constructor
  · exact (mean_image_dims_checked_at_setup _).1 (by rw [List.length_replicate]; omega)
  · have hset := setup_mean_image_ok (List.replicate 3072 (0 : Rat))
      (by rw [List.length_replicate])
    have hres := reshape_pixels_eq (List.replicate 3072 (0 : Rat))
      (by rw [List.length_replicate])
    obtain ⟨-, -, -, hpre⟩ := (mean_image_dims_checked_at_setup _).2 _ hset
    obtain ⟨out, hout⟩ := hpre _ _ hres
    exact ⟨_, _, out, hset, hres, hout⟩

/-- Claim C6 (confirmed): preprocessing an (H, W, C) image against a mean
image of matching dimensions yields a (C, H, W) tensor whose entry at
`(c, h, w)` is the image entry at `(h, w, C-1-c)` (channel axis reversed)
minus the mean-image entry at `(c, h, w)`. -/
theorem preprocess_bgr_transpose_mean_sub (img mean_image : Tensor3)
    (h0 : img.d2 = mean_image.d0) (h1 : img.d0 = mean_image.d1)
    (h2 : img.d1 = mean_image.d2) :
    ∃ out, get_preprocessed_image img mean_image = .ok out ∧
      out.d0 = img.d2 ∧ out.d1 = img.d0 ∧ out.d2 = img.d1 ∧
      ∀ c h w, out.data c h w =
        img.data h w (img.d2 - 1 - c) - mean_image.data c h w :=
  ⟨_, get_preprocessed_image_ok img mean_image h0 h1 h2, rfl, rfl, rfl,
    fun _ _ _ => rfl⟩

/-- Witness for C6 on a concrete (1, 1, 3) image and (3, 1, 1) mean: the
blue channel (input channel 2) lands in output channel 0, mean-subtracted. -/
theorem preprocess_bgr_transpose_mean_sub_witness :
    ∃ out, get_preprocessed_image ⟨1, 1, 3, fun _ _ k => (k : Rat)⟩
        ⟨3, 1, 1, fun _ _ _ => 1⟩ = .ok out ∧
      out.data 0 0 0 = 1 := by
  obtain ⟨out, hok, -, -, -, hdata⟩ := preprocess_bgr_transpose_mean_sub
    ⟨1, 1, 3, fun _ _ k => (k : Rat)⟩ ⟨3, 1, 1, fun _ _ _ => 1⟩ rfl rfl rfl
  refine ⟨out, hok, ?_⟩
  rw [hdata 0 0 0]
  norm_num

/-- Claim C4 (confirmed): with a loaded model producing 10-class score
vectors, `run_worker` yields exactly one result per input record, in input
order (any partition size, including 0 and 1); the `i`-th result pairs the
`i`-th record's true label with the argmax of the model's score vector for
that record — an in-range class index carrying the maximum score, with ties
broken by the lowest class index. -/
theorem run_worker_one_result_per_record (m : Model) (mean_image : Tensor3)
    (records : List ScoredRecord)
    (hm0 : mean_image.d0 = 3) (hm1 : mean_image.d1 = 32)
    (hm2 : mean_image.d2 = 32)
    (hrec : ∀ r ∈ records, r.image.d0 = 32 ∧ r.image.d1 = 32 ∧ r.image.d2 = 3)
    (hten : ∀ t : Tensor3, (m t).length = 10) :
    ∃ out, run_worker (.ok m) mean_image records = (.ok out, 1) ∧
      out.length = records.length ∧
      ∀ i (hi : i < records.length),
        out.getD i ⟨0, 0⟩ =
          ⟨(records.get ⟨i, hi⟩).label,
           (np_argmax (record_scores m mean_image (records.get ⟨i, hi⟩)) : Int)⟩ ∧
        np_argmax (record_scores m mean_image (records.get ⟨i, hi⟩)) < 10 ∧
        (∀ j, j < 10 →
          (record_scores m mean_image (records.get ⟨i, hi⟩)).getD j 0 ≤
            (record_scores m mean_image (records.get ⟨i, hi⟩)).getD
              (np_argmax (record_scores m mean_image (records.get ⟨i, hi⟩))) 0) ∧
        (∀ j, j < np_argmax (record_scores m mean_image (records.get ⟨i, hi⟩)) →
          (record_scores m mean_image (records.get ⟨i, hi⟩)).getD j 0 <
            (record_scores m mean_image (records.get ⟨i, hi⟩)).getD
              (np_argmax (record_scores m mean_image (records.get ⟨i, hi⟩))) 0) := by
  have hscore : ∀ r ∈ records, score_record m mean_image r =
      .ok ⟨r.label, (np_argmax (record_scores m mean_image r) : Int)⟩ := by
    intro r hr
    obtain ⟨ha, hb, hc⟩ := hrec r hr
    exact score_record_ok m mean_image r (by omega) (by omega) (by omega)
  have hloop := worker_loop_map m mean_image records
    (fun r => ⟨r.label, (np_argmax (record_scores m mean_image r) : Int)⟩) hscore
  refine ⟨records.map (fun r =>
      (⟨r.label, (np_argmax (record_scores m mean_image r) : Int)⟩ :
        PredictionResult)), ?_, by simp, ?_⟩
  · simp only [run_worker, hloop]
  · intro i hi
    have hgd : (records.map (fun r =>
        (⟨r.label, (np_argmax (record_scores m mean_image r) : Int)⟩ :
          PredictionResult))).getD i ⟨0, 0⟩ =
        ⟨(records.get ⟨i, hi⟩).label,
         (np_argmax (record_scores m mean_image (records.get ⟨i, hi⟩)) : Int)⟩ := by
      rw [list_getD_of_lt _ _ i (by simpa using hi), List.getElem_map]
      rfl
    have hs10 : (record_scores m mean_image (records.get ⟨i, hi⟩)).length = 10 :=
      hten _
    have hne : record_scores m mean_image (records.get ⟨i, hi⟩) ≠ [] := by
      intro hnil
      exact absurd (hnil ▸ hs10) (by simp)
    obtain ⟨hlt, hmax, hfirst⟩ := np_argmax_spec _ hne
    rw [hs10] at hlt hmax
    exact ⟨hgd, hlt, hmax, hfirst⟩

/-- Witness for C4 on a one-record partition with a constant model whose
score vector has a tie between classes 1 and 2: argmax picks class 1. -/
theorem run_worker_one_result_per_record_witness :
    ∃ out, run_worker (.ok fun _ => [0, 5, 5, 0, 0, 0, 0, 0, 0, 0])
        ⟨3, 32, 32, fun _ _ _ => 0⟩
        [⟨⟨32, 32, 3, fun _ _ _ => 0⟩, 7, "img0"⟩] = (.ok out, 1) ∧
      out.length = 1 ∧ out.getD 0 ⟨0, 0⟩ = ⟨7, 1⟩ := by
  obtain ⟨out, h1, h2, h3⟩ := run_worker_one_result_per_record
    (fun _ => [0, 5, 5, 0, 0, 0, 0, 0, 0, 0]) ⟨3, 32, 32, fun _ _ _ => 0⟩
    [⟨⟨32, 32, 3, fun _ _ _ => 0⟩, 7, "img0"⟩] rfl rfl rfl
    (by intro r hr; simp at hr; subst hr; exact ⟨rfl, rfl, rfl⟩)
    (fun _ => rfl)
  refine ⟨out, h1, h2, ?_⟩
  exact ((h3 0 (by simp)).1).trans (by decide)

/-- Claim C10 (confirmed): the reshaper returns the record's label and
filename unchanged, and the scorer emits the record's label as true label
with no range validation — any integer label, in range or not, flows through
to the PredictionResult untouched. -/
theorem labels_passed_through_unvalidated (r : ImageRecord)
    (hlen : r.pixels.length = 3072) (m : Model) (mean_image : Tensor3)
    (h0 : mean_image.d0 = 3) (h1 : mean_image.d1 = 32)
    (h2 : mean_image.d2 = 32) :
    ∃ t res, reshape_image r = .ok (t, r.label, r.filename) ∧
      score_record m mean_image ⟨t, r.label, r.filename⟩ = .ok res ∧
      res.true_label = r.label := by
  have hre : reshape_image r =
      .ok (⟨32, 32, 3, fun i j k => r.pixels.getD (k * 1024 + i * 32 + j) 0⟩,
        r.label, r.filename) := by
    simp only [reshape_image, reshape_pixels_eq r.pixels hlen]
    rfl
  exact ⟨_, _, hre,
    score_record_ok m mean_image ⟨_, r.label, r.filename⟩
      (by simp [h0]) (by simp [h1]) (by simp [h2]), rfl⟩

/-- Witness for C10 with the out-of-range label 42: the emitted true label
is still 42. -/
theorem labels_passed_through_unvalidated_witness :
    ∃ t res,
      reshape_image ⟨List.replicate 3072 (0 : Rat), 42, "odd"⟩ =
        .ok (t, 42, "odd") ∧
      score_record (fun _ => []) ⟨3, 32, 32, fun _ _ _ => 0⟩
        ⟨t, 42, "odd"⟩ = .ok res ∧
      res.true_label = 42 :=
  labels_passed_through_unvalidated ⟨List.replicate 3072 (0 : Rat), 42, "odd"⟩
    (by rw [List.length_replicate]) (fun _ => []) ⟨3, 32, 32, fun _ _ _ => 0⟩
    rfl rfl rfl

/-- Claim C1 counterexample: on the empty result collection the accuracy
cell divides by a zero total and raises ZeroDivisionError; it does not
return the accuracy 0 that the claim asserts. -/
theorem accuracy_empty_raises_div_error :
    accuracy ([] : List PredictionResult) = .error .ZeroDivisionError ∧
    accuracy ([] : List PredictionResult) ≠ .ok 0 := by
  refine ⟨rfl, ?_⟩
  intro h
  rw [show accuracy ([] : List PredictionResult) =
    .error .ZeroDivisionError from rfl] at h
  exact absurd h (by simp)

/-- Claim C1 (corrected): for every nonempty result collection the accuracy
cell returns correct count over total count; on the empty collection it
fails with a division error (see the counterexample theorem). -/
theorem accuracy_correct_over_total (results : List PredictionResult)
    (h : results ≠ []) :
    accuracy results =
      .ok ((num_correct results : Rat) / (num_total results : Rat)) :=
  accuracy_eq results h

/-- Witness for corrected C1: one correct prediction gives accuracy 1. -/
theorem accuracy_correct_over_total_witness :
    accuracy [(⟨0, 0⟩ : PredictionResult)] = .ok 1 := by
  have h := accuracy_correct_over_total [⟨0, 0⟩] (by simp)
  rw [h, show num_correct [(⟨0, 0⟩ : PredictionResult)] = 1 from by decide,
    show num_total [(⟨0, 0⟩ : PredictionResult)] = 1 from rfl]
  norm_num

/-- Claim C2 counterexample: for a collection whose only true label is 0,
the notebook's label set is `[0]` and the confusion matrix is the 1×1 matrix
`[[1]]` — it has no row or column for the labels 1..9 of the enumerated set
{0..9}, contradicting the claim that every pair of {0..9}×{0..9} is counted. -/
theorem confusion_matrix_misses_absent_labels :
    sorted_unique_true_labels [(⟨0, 0⟩ : PredictionResult)] = [0] ∧
    confusion_matrix [(⟨0, 0⟩ : PredictionResult)] = [[1]] ∧
    (confusion_matrix [(⟨0, 0⟩ : PredictionResult)]).length ≠ 10 := by
  refine ⟨by decide, by decide, by decide⟩

/-- Claim C2 (corrected): the confusion matrix is square over the sorted
distinct true labels actually occurring in the results (not the enumerated
set {0..9}); within that label set it holds a count for every (true,
predicted) pair, including zero counts. -/
theorem confusion_matrix_over_occurring_labels
    (results : List PredictionResult) :
    (confusion_matrix results).length =
      (sorted_unique_true_labels results).length ∧
    (∀ r ∈ results, r.true_label ∈ sorted_unique_true_labels results) ∧
    ∀ i j, i < (sorted_unique_true_labels results).length →
      j < (sorted_unique_true_labels results).length →
      ((confusion_matrix results).getD i []).getD j 0 =
        (results.filter (fun r =>
          r.true_label == (sorted_unique_true_labels results).getD i 0 &&
          r.predicted_label ==
            (sorted_unique_true_labels results).getD j 0)).length := by
  refine ⟨by simp [confusion_matrix], mem_sorted_unique_true_labels results, ?_⟩
  intro i j hi hj
  exact confusion_matrix_entry results i j hi hj

/-- Witness for corrected C2 on two results with true labels 0 and 1: the
matrix entry at row 0, column 1 counts the single (0, 1) result, and the
zero pair (1, 1) is present with count 0. -/
theorem confusion_matrix_over_occurring_labels_witness :
    ((confusion_matrix [(⟨0, 1⟩ : PredictionResult), ⟨1, 0⟩]).getD 0 []).getD 1 0
      = 1 ∧
    ((confusion_matrix [(⟨0, 1⟩ : PredictionResult), ⟨1, 0⟩]).getD 1 []).getD 1 0
      = 0 := by
  have h := confusion_matrix_over_occurring_labels
    [(⟨0, 1⟩ : PredictionResult), ⟨1, 0⟩]
  exact ⟨(h.2.2 0 1 (by decide) (by decide)).trans (by decide),
    (h.2.2 1 1 (by decide) (by decide)).trans (by decide)⟩
